import Mathlib

/-!
Shallow embedding of the two scripts of this repository:
`src/scripts/db_server.py` (a Flask application serving the file
`sqlite.db` for download) and `src/scripts/sqlite_server.py` (a launcher
that starts the external `sqlite_web` tool on the same database file).

The filesystem is modelled as a partial map from absolute paths to file
contents; the current working directory, the command-line argument vector
and the process environment are explicit parameters of the entry points,
mirroring what a Python process receives from the operating system.
-/

/-- A filesystem state: maps an absolute path to the file's bytes, or
`none` when no file exists at that path. -/
abbrev FileSystem := String → Option (List Nat)

/-- A process environment: maps a variable name to its value, if set. -/
abbrev Env := String → Option String

/-- Whether a POSIX path is absolute: it starts with a slash. -/
def isAbsolute (p : String) : Bool :=
  match p.data with
  | [] => false
  | c :: _ => c == '/'

/-- Model of `os.path.abspath`: resolve a path against the current working
directory.  An already-absolute path is returned unchanged; a relative
name is joined to the working directory.  `os.path.abspath` performs no
filesystem access, so the model takes no `FileSystem` argument. -/
def os_path_abspath (cwd : String) (p : String) : String :=
  if isAbsolute p then p else cwd ++ "/" ++ p

/-- An HTTP response as assembled by the Flask layer: status code,
MIME type, whether the `Content-Disposition` marks it as an attachment,
the attachment's download name, extra headers, and the body bytes. -/
structure Response where
  status : Nat
  mimetype : Option String
  asAttachment : Bool
  downloadName : Option String
  headers : List (String × String)
  body : List Nat
  deriving Repr, DecidableEq

/-- Errors raised by the framework's helpers: `send_file` on a missing
file raises `NotFound`. -/
inductive FrameworkError where
  | notFound
  deriving Repr, DecidableEq

/-- Model of `flask.send_file path mimetype as_attachment download_name`:
reads the file at `path`; on success builds a 200 response with the given
MIME type and attachment settings, otherwise raises `NotFound`.  The
second component records the paths this call accessed on the filesystem. -/
def send_file (fs : FileSystem) (path : String) (mimetype : String)
    (as_attachment : Bool) (download_name : String) :
    Except FrameworkError Response × List String :=
  match fs path with
  | some bytes =>
      (Except.ok { status := 200, mimetype := some mimetype,
                   asAttachment := as_attachment,
                   downloadName := some download_name,
                   headers := [], body := bytes }, [path])
  | none => (Except.error FrameworkError.notFound, [path])

/-- The handler `serve_db` of `db_server.py`: computes
`db_path = os.path.abspath('sqlite.db')` and returns
`send_file(db_path, mimetype='application/x-sqlite3', as_attachment=True,
download_name='sqlite.db')`.  It catches no exception. -/
def serve_db (fs : FileSystem) (cwd : String) :
    Except FrameworkError Response × List String :=
  let db_path := os_path_abspath cwd "sqlite.db"
  send_file fs db_path "application/x-sqlite3" true "sqlite.db"

/-- A Flask application: its registered routes (path pattern paired with
handler) and whether `CORS(app)` was applied to it. -/
structure FlaskApp where
  routes : List (String × (FileSystem → String → Except FrameworkError Response × List String))
  corsEnabled : Bool

/-- Flask's built-in default not-found error response (no code of this
repository builds it). -/
def flask_default_404 : Response :=
  { status := 404, mimetype := some "text/html", asAttachment := false,
    downloadName := none, headers := [], body := [] }

/-- Model of `flask_cors.CORS` on a response: add the header allowing
cross-origin requests from any origin. -/
def addCors (r : Response) : Response :=
  { r with headers := ("Access-Control-Allow-Origin", "*") :: r.headers }

/-- The framework's rendering of an uncaught `FrameworkError` inside the
given application: Flask's default error page, in a `CORS`-wrapped
application still carrying the cross-origin header (flask-cors intercepts
error responses as well). -/
def framework_default_response (app : FlaskApp) (e : FrameworkError) : Response :=
  match e with
  | FrameworkError.notFound =>
      if app.corsEnabled then addCors flask_default_404 else flask_default_404

/-- Dispatch one HTTP request against a Flask application: find the route
registered for the path; run its handler, rendering an uncaught framework
error with the framework's default; requests matching no route get the
framework's default not-found response and run no handler.  The second
component is the list of filesystem paths read while serving the
request. -/
def handle_request (app : FlaskApp) (path : String) (fs : FileSystem)
    (cwd : String) : Response × List String :=
  match app.routes.find? (fun r => r.1 == path) with
  | some r =>
      let out := r.2 fs cwd
      match out.1 with
      | Except.ok resp =>
          ((if app.corsEnabled then addCors resp else resp), out.2)
      | Except.error e => (framework_default_response app e, out.2)
  | none =>
      (framework_default_response app FrameworkError.notFound, [])

/-- The Flask application assembled by `db_server.py` at import time:
`app = Flask(__name__)`, `CORS(app)`, and the single route
`@app.route('/sqlite.db')` bound to `serve_db`. -/
def db_server_app : FlaskApp :=
  { routes := [("/sqlite.db", serve_db)], corsEnabled := true }

/-- The server start performed by `db_server.py`'s `__main__` block:
which application is run, and the host and port passed to `app.run`. -/
structure ServerRun where
  host : String
  port : Nat
  app : FlaskApp

/-- The `__main__` block of `db_server.py`: runs `app` on host `0.0.0.0`,
port `5000`.  The script never reads `sys.argv` or `os.environ`, so the
result ignores both parameters. -/
def db_server_main (_argv : List String) (_env : Env) : ServerRun :=
  { host := "0.0.0.0", port := 5000, app := db_server_app }

/-- An observable action of the launcher script: printing a line, running
a child process and blocking until it exits (`subprocess.run`), or
raising an error of its own.  `sqlite_server.py` never raises. -/
inductive Event where
  | print (s : String)
  | runWait (argv : List String)
  | raise (msg : String)
  deriving Repr, DecidableEq

/-- Whether an event is the script raising an error of its own. -/
def Event.isRaise : Event → Bool
  | Event.raise _ => true
  | _ => false

/-- The `__main__` block of `sqlite_server.py`: compute
`db_path = os.path.abspath('sqlite.db')`, print two banner lines, then
`subprocess.run` the `sqlite_web` tool on that path.  The script reads
neither `sys.argv`, nor `os.environ`, nor the filesystem, so the trace
ignores those parameters. -/
def sqlite_server_main (_argv : List String) (_env : Env) (_fs : FileSystem)
    (cwd : String) : List Event :=
  let db_path := os_path_abspath cwd "sqlite.db"
  [ Event.print ("Starting SQLite Web server for database: " ++ db_path),
    Event.print "Access the database at http://0.0.0.0:8080",
    Event.runWait ["sqlite_web",
                   "--host", "0.0.0.0",
                   "--port", "8080",
                   "--no-browser",
                   "--read-only",
                   db_path] ]

/-- The argument vectors of the child processes launched in a trace. -/
def process_invocations (t : List Event) : List (List String) :=
  t.filterMap (fun e => match e with
    | Event.runWait a => some a
    | _ => none)

/-- The database path computed inside `serve_db` (`db_server.py`). -/
def db_server_db_path (cwd : String) : String :=
  os_path_abspath cwd "sqlite.db"

/-- The database path computed in the `__main__` block of
`sqlite_server.py`. -/
def sqlite_server_db_path (cwd : String) : String :=
  os_path_abspath cwd "sqlite.db"

/-- Modelled from the spec: the absolute path obtained by resolving the
fixed relative name `sqlite.db` against the current working directory. -/
def spec_resolved_db_path (cwd : String) : String :=
  cwd ++ "/" ++ "sqlite.db"

/-- C1: a GET to the route `/sqlite.db`, when the file exists at the path
resolved from the current working directory, yields a 200 response with
MIME type `application/x-sqlite3`, marked as an attachment with download
name `sqlite.db`. -/
theorem C1_download_ok (fs : FileSystem) (cwd : String) (bytes : List Nat)
    (h : fs (os_path_abspath cwd "sqlite.db") = some bytes) :
    (handle_request db_server_app "/sqlite.db" fs cwd).1.status = 200 ∧
    (handle_request db_server_app "/sqlite.db" fs cwd).1.mimetype =
      some "application/x-sqlite3" ∧
    (handle_request db_server_app "/sqlite.db" fs cwd).1.asAttachment = true ∧
    (handle_request db_server_app "/sqlite.db" fs cwd).1.downloadName =
      some "sqlite.db" := by
  simp [handle_request, db_server_app, serve_db, send_file, h, addCors,
    List.find?]

theorem C1_download_ok_witness :
    (handle_request db_server_app "/sqlite.db"
        (fun p => if p = "/srv/sqlite.db" then some [7] else none)
        "/srv").1.status = 200 ∧
    (handle_request db_server_app "/sqlite.db"
        (fun p => if p = "/srv/sqlite.db" then some [7] else none)
        "/srv").1.mimetype = some "application/x-sqlite3" ∧
    (handle_request db_server_app "/sqlite.db"
        (fun p => if p = "/srv/sqlite.db" then some [7] else none)
        "/srv").1.asAttachment = true ∧
    (handle_request db_server_app "/sqlite.db"
        (fun p => if p = "/srv/sqlite.db" then some [7] else none)
        "/srv").1.downloadName = some "sqlite.db" :=
  C1_download_ok (fun p => if p = "/srv/sqlite.db" then some [7] else none)
    "/srv" [7] (by decide)

/-- C2: whenever `sqlite_server.py` is executed as a script, it invokes
exactly one external process, `sqlite_web`, binding host `0.0.0.0` and
port `8080`, passing `--no-browser` and `--read-only`, with the absolute
path of `sqlite.db` resolved from the current working directory as the
final argument. -/
theorem C2_single_sqlite_web_invocation (argv : List String) (env : Env)
    (fs : FileSystem) (cwd : String) :
    process_invocations (sqlite_server_main argv env fs cwd) =
      [["sqlite_web", "--host", "0.0.0.0", "--port", "8080",
        "--no-browser", "--read-only", os_path_abspath cwd "sqlite.db"]] :=
  rfl

/-- C3: when `sqlite.db` is absent at the resolved path, `serve_db`
propagates the framework's `NotFound` error untranslated, and the GET to
`/sqlite.db` yields the framework's default not-found response built by
no code of this repository. -/
theorem C3_missing_file_default_404 (fs : FileSystem) (cwd : String)
    (h : fs (os_path_abspath cwd "sqlite.db") = none) :
    (serve_db fs cwd).1 = Except.error FrameworkError.notFound ∧
    (handle_request db_server_app "/sqlite.db" fs cwd).1 =
      framework_default_response db_server_app FrameworkError.notFound := by
  constructor
  · simp [serve_db, send_file, h]
  · simp [handle_request, db_server_app, serve_db, send_file, h, List.find?]

theorem C3_missing_file_default_404_witness :
    (serve_db (fun _ => none) "/srv").1 = Except.error FrameworkError.notFound ∧
    (handle_request db_server_app "/sqlite.db" (fun _ => none) "/srv").1 =
      framework_default_response db_server_app FrameworkError.notFound :=
  C3_missing_file_default_404 (fun _ => none) "/srv" rfl

/-- C4: the database path of each script is the fixed relative name
`sqlite.db` resolved against the current working directory; the path the
handler reads and the path handed to the external tool are the same
function of the working directory, which agrees with the spec's
description of the resolution. -/
theorem C4_same_db_path (cwd : String) (fs : FileSystem) (argv : List String)
    (env : Env) :
    (serve_db fs cwd).2 = [db_server_db_path cwd] ∧
    process_invocations (sqlite_server_main argv env fs cwd) =
      [["sqlite_web", "--host", "0.0.0.0", "--port", "8080",
        "--no-browser", "--read-only", sqlite_server_db_path cwd]] ∧
    db_server_db_path cwd = sqlite_server_db_path cwd ∧
    sqlite_server_db_path cwd = spec_resolved_db_path cwd := by
  refine ⟨?_, rfl, rfl, ?_⟩
  · cases h : fs (os_path_abspath cwd "sqlite.db") <;>
      simp [serve_db, send_file, h, db_server_db_path]
  · unfold sqlite_server_db_path spec_resolved_db_path os_path_abspath
    rw [if_neg]
    decide

/-- C5: behaviour is independent of argv and the environment: with the
same working directory and filesystem, two executions differing only in
argv or environment give identical server configurations, identical HTTP
responses, and an identical trace (hence identical argument vector for
the external process). -/
theorem C5_argv_env_independent (argv argv' : List String) (env env' : Env)
    (path : String) (fs : FileSystem) (cwd : String) :
    db_server_main argv env = db_server_main argv' env' ∧
    handle_request (db_server_main argv env).app path fs cwd =
      handle_request (db_server_main argv' env').app path fs cwd ∧
    sqlite_server_main argv env fs cwd = sqlite_server_main argv' env' fs cwd :=
  ⟨rfl, rfl, rfl⟩

/-- C6: every response of the db_server application, on any request path
and filesystem state, carries the cross-origin header permitting any
origin, since `CORS(app)` was applied to the whole application. -/
theorem C6_cors_on_every_response (path : String) (fs : FileSystem)
    (cwd : String) :
    ("Access-Control-Allow-Origin", "*") ∈
      (handle_request db_server_app path fs cwd).1.headers := by
  by_cases hp : ("/sqlite.db" : String) = path
  · subst hp
    cases h : fs (os_path_abspath cwd "sqlite.db") <;>
      simp [handle_request, db_server_app, serve_db, send_file, h,
        List.find?, addCors, framework_default_response, flask_default_404]
  · have hb : (("/sqlite.db" : String) == path) = false :=
      beq_eq_false_iff_ne.mpr hp
    simp [handle_request, db_server_app, List.find?, hb, addCors,
      framework_default_response, flask_default_404]

/-- C7: executed as a script, db_server runs its HTTP server on host
`0.0.0.0` and port `5000`, and the application's only registered route is
`/sqlite.db`. -/
theorem C7_host_port_routes (argv : List String) (env : Env) :
    (db_server_main argv env).host = "0.0.0.0" ∧
    (db_server_main argv env).port = 5000 ∧
    (db_server_main argv env).app.routes.map Prod.fst = ["/sqlite.db"] :=
  ⟨rfl, rfl, rfl⟩

/-- C8: each execution of `sqlite_server.py` performs exactly one child
process invocation; it is a blocking `subprocess.run` (the `runWait`
event) and it is the last action of the trace, so the parent only waits
for the child to exit and never launches it twice nor supervises it. -/
theorem C8_one_blocking_child (argv : List String) (env : Env)
    (fs : FileSystem) (cwd : String) :
    (process_invocations (sqlite_server_main argv env fs cwd)).length = 1 ∧
    (sqlite_server_main argv env fs cwd).getLast? =
      some (Event.runWait ["sqlite_web", "--host", "0.0.0.0", "--port",
        "8080", "--no-browser", "--read-only",
        os_path_abspath cwd "sqlite.db"]) :=
  ⟨rfl, rfl⟩

/-- C9: the launcher checks nothing about the database file: its trace is
the same for every filesystem state (including one where `sqlite.db` is
absent), it raises no error of its own, and it still invokes the external
process with the resolved path. -/
theorem C9_no_existence_check (argv : List String) (env : Env)
    (fs fs' : FileSystem) (cwd : String) :
    sqlite_server_main argv env fs cwd = sqlite_server_main argv env fs' cwd ∧
    (sqlite_server_main argv env fs cwd).all (fun e => !e.isRaise) = true ∧
    process_invocations (sqlite_server_main argv env fs cwd) =
      [["sqlite_web", "--host", "0.0.0.0", "--port", "8080",
        "--no-browser", "--read-only", os_path_abspath cwd "sqlite.db"]] :=
  ⟨rfl, rfl, rfl⟩

/-- C10: the application registers exactly one route, and a request to
any other path runs no handler of this repository: it gets the
framework's default not-found response and performs no file read. -/
theorem C10_unmatched_path (path : String) (h : path ≠ "/sqlite.db")
    (fs : FileSystem) (cwd : String) :
    db_server_app.routes.length = 1 ∧
    handle_request db_server_app path fs cwd =
      (framework_default_response db_server_app FrameworkError.notFound, []) := by
  refine ⟨rfl, ?_⟩
  have hb : (("/sqlite.db" : String) == path) = false :=
    beq_eq_false_iff_ne.mpr (fun hh => h hh.symm)
  simp [handle_request, db_server_app, List.find?, hb]

theorem C10_unmatched_path_witness :
    db_server_app.routes.length = 1 ∧
    handle_request db_server_app "/" (fun _ => some [7]) "/srv" =
      (framework_default_response db_server_app FrameworkError.notFound, []) :=
  C10_unmatched_path "/" (by decide) (fun _ => some [7]) "/srv"
